import Mathlib

/-
Verification development for the avalon-stats miner protocol client
(src/MinerAPI.py and src/Miners.py).  The Python code is shallowly
embedded: decoded JSON responses become an inductive `Json` value,
raised Python exceptions become the error side of an `Except` monad,
and each method of interest becomes an executable Lean function that
mirrors the source line by line.
-/

namespace AvalonStats

/-- Decoded JSON values, as produced by Python's json.loads: null, booleans,
numbers (the responses the client handles carry integers), strings, arrays
and objects (insertion-ordered key/value lists, keys unique). -/
inductive Json where
  | null
  | bool (b : Bool)
  | num (n : Int)
  | str (s : String)
  | arr (elems : List Json)
  | obj (fields : List (String × Json))

/-- The error_type constants of MinerException (MinerAPI.py lines 28-32). -/
inductive ErrorType where
  | fatal
  | warning
  | retry_short
  | retry_long
deriving DecidableEq

/-- MinerException.is_retryable (MinerAPI.py lines 45-47): the error type is
one of RETRY_SHORT, RETRY_LONG. -/
def ErrorType.is_retryable : ErrorType → Bool
  | .retry_short => true
  | .retry_long => true
  | _ => false

/-- What a modelled Python call can do besides returning: raise a
MinerException (message and error_type), raise some other exception
(kind such as RuntimeError / KeyError / IndexError / TypeError /
AttributeError, plus message), or terminate the process via sys.exit. -/
inductive PyError where
  | minerExc (message : String) (error_type : ErrorType)
  | raised (kind : String) (message : String)
  | sysExit (code : Nat)
deriving DecidableEq

/-- Outcome of a modelled Python computation. -/
abbrev Py (α : Type) : Type := Except PyError α

/-- Python truthiness of a decoded JSON value (`if not response:` etc.). -/
def Json.isTruthy : Json → Bool
  | .null => false
  | .bool b => b
  | .num n => n != 0
  | .str s => s ≠ ""
  | .arr elems => !elems.isEmpty
  | .obj fields => !fields.isEmpty

/-- First binding of a key in an insertion-ordered field list. -/
def lookupField : List (String × Json) → String → Option Json
  | [], _ => none
  | (k, v) :: rest, key => if k = key then some v else lookupField rest key

/-- Whether the character list `pat` is a prefix of `s`. -/
def listStartsWith : List Char → List Char → Bool
  | [], _ => true
  | _ :: _, [] => false
  | a :: as, b :: bs => a == b && listStartsWith as bs

/-- Whether the character list `pat` occurs contiguously inside `s`. -/
def listHasSub (pat : List Char) : List Char → Bool
  | [] => pat.isEmpty
  | c :: rest => listStartsWith pat (c :: rest) || listHasSub pat rest

/-- Substring containment on strings. -/
def substrCheck (s pat : String) : Bool :=
  listHasSub pat.toList s.toList

/-- Python `key in container` for the containers the client meets: key
membership for dicts, element equality for lists, substring test for
strings; anything else is a TypeError. -/
def pyContainsKey (j : Json) (key : String) : Py Bool :=
  match j with
  | .obj fields => .ok (fields.any (fun kv => kv.1 == key))
  | .arr elems => .ok (elems.any (fun e => match e with | .str t => t == key | _ => false))
  | .str t => .ok (substrCheck t key)
  | _ => .error (.raised "TypeError" "argument is not iterable")

/-- Python `d[key]` on a decoded value: dict lookup (KeyError when absent),
TypeError otherwise. -/
def Json.getKey (j : Json) (key : String) : Py Json :=
  match j with
  | .obj fields =>
    match lookupField fields key with
    | some v => .ok v
    | none => .error (.raised "KeyError" key)
  | _ => .error (.raised "TypeError" "object is not subscriptable by str")

/-- Python `x[i]` for a non-negative index: list indexing (IndexError when
out of range), single-character string indexing, TypeError otherwise. -/
def Json.getIdx (j : Json) (i : Nat) : Py Json :=
  match j with
  | .arr elems =>
    match elems.get? i with
    | some v => .ok v
    | none => .error (.raised "IndexError" "list index out of range")
  | .str s =>
    match s.toList.get? i with
    | some c => .ok (.str c.toString)
    | none => .error (.raised "IndexError" "string index out of range")
  | _ => .error (.raised "TypeError" "object is not subscriptable by int")

/-- Python `a == b` between a decoded value and a string literal. -/
def jsonEqStr : Json → String → Bool
  | .str s, t => s == t
  | _, _ => false

/-- Python `a == b` between a decoded value and an int literal (Python
booleans compare equal to 0/1). -/
def jsonEqNum : Json → Int → Bool
  | .num n, k => n == k
  | .bool b, k => (if b then (1 : Int) else 0) == k
  | _, _ => false

/-- Lower-casing of a character list. -/
def lowerChars : List Char → List Char
  | [] => []
  | c :: cs => c.toLower :: lowerChars cs

/-- Python `re.search(pattern, s, re.IGNORECASE)` truthiness for the literal
patterns of the error table (no regex metacharacters): case-insensitive
substring containment. -/
def searchCI (pat s : String) : Bool :=
  listHasSub (lowerChars pat.toList) (lowerChars s.toList)

/-- The ordered error-message pattern table of CGMiner._handle_response
(Miners.py lines 237-244, identical in MinerAPI.py lines 395-402). -/
def error_patterns : List (String × ErrorType) :=
  [("Not ready", ErrorType.retry_short), ("Disconnected", ErrorType.retry_long)]

/-- The pattern-matching loop of _handle_response: first matching rule wins. -/
def matchErrorPatterns (errmsg : String) : List (String × ErrorType) → Option ErrorType
  | [] => none
  | (pat, ty) :: rest =>
    if searchCI pat errmsg then some ty else matchErrorPatterns errmsg rest

/-- Expect a decoded value to be a string (re.search raises TypeError on
non-string input). -/
def expectStr : Json → Py String
  | .str s => .ok s
  | _ => .error (.raised "TypeError" "expected string or bytes-like object")

/-- CGMiner._handle_response (Miners.py lines 203-269; the copy in
MinerAPI.py lines 361-427 is identical).  Classifies one decoded response:
falsy data is a RuntimeError; a single-token command without a STATUS key
exits the process with code 2; Error severity runs the pattern table and
raises a retryable MinerException on a match, otherwise prints and exits
with code 3; a severity that is neither E nor S prints and exits with code
4; on Success the Code selects the payload (70 = STATS, 11 = SUMMARY[0],
9 = DEVS), any other code returns the whole object unrecognized. -/
def handle_response (data : Json) (command : String) : Py (Json × Bool) := do
  if !data.isTruthy then
    throw (.raised "RuntimeError" ("No response returned for command: " ++ command))
  if !(command.toList.contains '+') then
    let hasStatus ← pyContainsKey data "STATUS"
    if !hasStatus then
      throw (.sysExit 2)
  let statusArr ← data.getKey "STATUS"
  let status ← statusArr.getIdx 0
  let sev ← status.getKey "STATUS"
  if jsonEqStr sev "E" then
    let msgJ ← status.getKey "Msg"
    let errmsg ← expectStr msgJ
    match matchErrorPatterns errmsg error_patterns with
    | some ty => throw (.minerExc ("Error for command " ++ command ++ ": " ++ errmsg) ty)
    | none => throw (.sysExit 3)
  if !(jsonEqStr sev "S") then
    let _ ← status.getKey "Msg"
    throw (.sysExit 4)
  let code ← status.getKey "Code"
  if jsonEqNum code 70 then
    let stats ← data.getKey "STATS"
    return (stats, true)
  else if jsonEqNum code 11 then
    let summArr ← data.getKey "SUMMARY"
    let summ0 ← summArr.getIdx 0
    return (summ0, true)
  else if jsonEqNum code 9 then
    let devs ← data.getKey "DEVS"
    return (devs, true)
  else
    return (data, false)

/-- BOSminer._handle_response (Miners.py lines 277-299): delegate to the
base classifier; when it did not recognize the code and the data carries a
STATUS key, additionally map 201 to TEMPS and 202 to FANS, otherwise warn
and return the raw object unrecognized. -/
def bos_handle_response (data : Json) (command : String) : Py (Json × Bool) := do
  let (result, was_recognized) ← handle_response data command
  if !was_recognized then
    let hasStatus ← pyContainsKey data "STATUS"
    if hasStatus then
      let statusArr ← data.getKey "STATUS"
      let status ← statusArr.getIdx 0
      let code ← status.getKey "Code"
      if jsonEqNum code 201 then
        let temps ← data.getKey "TEMPS"
        return (temps, true)
      else if jsonEqNum code 202 then
        let fans ← data.getKey "FANS"
        return (fans, true)
      else
        return (data, false)
    else
      return (result, was_recognized)
  else
    return (result, was_recognized)

/-- A command argument: either a single string token or a list/tuple of
tokens to be combined into one wire request. -/
inductive Cmd where
  | single (s : String)
  | combined (parts : List String)

/-- The command string put on the wire: tokens joined by "+" for a
list/tuple command (Miners.py line 77). -/
def Cmd.commandStr : Cmd → String
  | .single s => s
  | .combined parts => String.intercalate "+" parts

/-- An ASCII apostrophe, kept out of the surrounding string literals. -/
def sq : String := (Char.ofNat 39).toString

/-- The message of the missing-key error raised by api_command
(f-string at Miners.py line 97 / MinerAPI.py line 263). -/
def no_key_msg (key commandStr : String) : String :=
  "No " ++ key ++ " returned for " ++ sq ++ commandStr ++ sq ++ " request"

/-- The expected-keys validation loop of CGMiner.api_command in Miners.py
(lines 94-97): a token absent from the decoded mapping raises a
MinerException with error_type RETRY_SHORT. -/
def checkKeys (commandStr : String) (resp : Json) : List String → Py Unit
  | [] => .ok ()
  | k :: rest => do
    let present ← pyContainsKey resp k
    if !present then
      throw (.minerExc (no_key_msg k commandStr) .retry_short)
    checkKeys commandStr resp rest

/-- CGMiner.api_command of Miners.py (lines 60-99), as a function of the
decoded response the device produced (`none` models get_resp returning
None).  A falsy response raises MinerException RETRY_LONG; a single-token
command whose decoded mapping lacks STATUS raises a default (FATAL)
MinerException; for combined commands every token must be a key of the
mapping, a missing one raising MinerException RETRY_SHORT. -/
def api_command (command : Cmd) (resp : Option Json) : Py Json := do
  let commandStr := command.commandStr
  match resp with
  | none =>
    throw (.minerExc ("No response returned for command: " ++ commandStr) .retry_long)
  | some response =>
    if !response.isTruthy then
      throw (.minerExc ("No response returned for command: " ++ commandStr) .retry_long)
    if !(commandStr.toList.contains '+') then
      let hasStatus ← pyContainsKey response "STATUS"
      if !hasStatus then
        throw (.minerExc "Unrecognized response, no STATUS" .fatal)
    match command with
    | .single _ => return response
    | .combined parts => do
      checkKeys commandStr response parts
      return response

/-- The expected-keys validation loop of the older CGMiner.api_command copy
in MinerAPI.py (lines 259-263): a missing token raises a plain
RuntimeError, not a MinerException. -/
def checkKeysLegacy (commandStr : String) (resp : Json) : List String → Py Unit
  | [] => .ok ()
  | k :: rest => do
    let present ← pyContainsKey resp k
    if !present then
      throw (.raised "RuntimeError" (no_key_msg k commandStr))
    checkKeysLegacy commandStr resp rest

/-- CGMiner.api_command of MinerAPI.py (lines 226-265).  Identical to the
Miners.py copy except that the empty-response and missing-key conditions
raise RuntimeError (lines 253 and 263) instead of retryable
MinerExceptions. -/
def api_command_legacy (command : Cmd) (resp : Option Json) : Py Json := do
  let commandStr := command.commandStr
  match resp with
  | none =>
    throw (.raised "RuntimeError" ("No response returned for command: " ++ commandStr))
  | some response =>
    if !response.isTruthy then
      throw (.raised "RuntimeError" ("No response returned for command: " ++ commandStr))
    if !(commandStr.toList.contains '+') then
      let hasStatus ← pyContainsKey response "STATUS"
      if !hasStatus then
        throw (.minerExc "Unrecognized response, no STATUS" .fatal)
    match command with
    | .single _ => return response
    | .combined parts => do
      checkKeysLegacy commandStr response parts
      return response

/-- Python `d.get(key, default)`: dict lookup with a default; a non-dict
raises AttributeError (lists and scalars have no .get). -/
def pyGetDefault (j : Json) (key : String) (default : Json) : Py Json :=
  match j with
  | .obj fields => .ok ((lookupField fields key).getD default)
  | _ => .error (.raised "AttributeError" "object has no attribute get")

/-- The try-block body of CGMiner.detect_miner_type (Miners.py lines 47-56):
probe with the version command, take response.get(VERSION, [empty])[0] and
test the BOSer / CGMiner marker keys. -/
def detect_body (resp : Option Json) : Py String := do
  let response ← api_command (.single "version") resp
  let versionList ← pyGetDefault response "VERSION" (.arr [.obj []])
  let version_data ← versionList.getIdx 0
  let hasBos ← pyContainsKey version_data "BOSer"
  if hasBos then
    return "bosminer"
  else
    let hasCg ← pyContainsKey version_data "CGMiner"
    if hasCg then
      return "cgminer"
    else
      return "unknown"

/-- CGMiner.detect_miner_type (Miners.py lines 38-58, identical in
MinerAPI.py lines 207-224): run the probe body, converting a raised
KeyError, IndexError or TypeError into the result "unknown"; every other
exception (in particular the MinerException raised by api_command on an
empty response) propagates. -/
def detect_miner_type (resp : Option Json) : Py String :=
  match detect_body resp with
  | .error (.raised k m) =>
    if k == "KeyError" || k == "IndexError" || k == "TypeError" then
      .ok "unknown"
    else
      .error (.raised k m)
  | other => other

/-- The retry parameters of CGMiner.execute_command (Miners.py lines
101-102).  Durations are rationals, standing for the real-valued seconds
of time.time(). -/
structure RetryConfig where
  max_retry_duration : ℚ
  initial_delay_short : ℚ
  initial_delay_long : ℚ
  max_delay : ℚ

/-- The base-delay selection of the except-block (Miners.py lines 176-182):
RETRY_SHORT uses initial_delay_short, RETRY_LONG uses initial_delay_long,
anything else falls back to initial_delay_short. -/
def base_delay (cfg : RetryConfig) (ty : ErrorType) : ℚ :=
  if ty = ErrorType.retry_short then cfg.initial_delay_short
  else if ty = ErrorType.retry_long then cfg.initial_delay_long
  else cfg.initial_delay_short

/-- What one caught MinerException leads to: re-raising it, or sleeping for
a computed delay and looping. -/
inductive RetryDecision where
  | reraise
  | sleep (delay : ℚ)

/-- The except-MinerException block of CGMiner.execute_command (Miners.py
lines 165-190): non-retryable errors and errors caught at or past the
deadline are re-raised; otherwise the delay is base * (attempt+1) capped
at max_delay and then at the remaining time. -/
def retry_decision (cfg : RetryConfig) (ty : ErrorType) (elapsed : ℚ) (attempt : ℕ) :
    RetryDecision :=
  if !ty.is_retryable then .reraise
  else if cfg.max_retry_duration ≤ elapsed then .reraise
  else
    let delay := min (base_delay cfg ty * ((attempt : ℚ) + 1)) cfg.max_delay
    let delay := min delay (cfg.max_retry_duration - elapsed)
    .sleep delay

/-- One iteration of the execute_command while-loop, seen from the except
block: the outcome the attempt produced and the value of
time.time() - retry_start_time at the moment the exception is caught. -/
structure Attempt where
  outcome : Py Json
  elapsed : ℚ

/-- Observable behaviour of the execute_command loop over a finite script
of attempts: either it finished (returning or re-raising) after the
recorded sleeps, or the script ran out while the loop would continue. -/
inductive ExecTrace where
  | done (result : Py Json) (sleeps : List ℚ)
  | pending (sleeps : List ℚ)

/-- The sleeps a trace recorded. -/
def ExecTrace.sleeps : ExecTrace → List ℚ
  | .done _ s => s
  | .pending s => s

/-- The while-True loop of CGMiner.execute_command (Miners.py lines
136-201), abstracted over a script assigning each iteration its outcome
and catch-time: a successful attempt returns; a MinerException consults
retry_decision, either re-raising (terminating with that error, the rest
of the script untouched) or sleeping and looping with attempt+1; any
other exception is not caught and propagates. -/
def execute_command (cfg : RetryConfig) : ℕ → List Attempt → ExecTrace
  | _, [] => .pending []
  | attempt, a :: rest =>
    match a.outcome with
    | .ok v => .done (.ok v) []
    | .error (.minerExc msg ty) =>
      match retry_decision cfg ty a.elapsed attempt with
      | .reraise => .done (.error (.minerExc msg ty)) []
      | .sleep d =>
        match execute_command cfg (attempt + 1) rest with
        | .done r sleeps => .done r (d :: sleeps)
        | .pending sleeps => .pending (d :: sleeps)
    | .error e => .done (.error e) []

/-- The accumulation loop of MinerAPI.rawread (MinerAPI.py lines 160-170)
over a script of poll results: `none` is hasdata(0.5) timing out, `some s`
is hasdata true followed by recv returning s; an empty recv ends the loop,
otherwise the chunk is appended and the loop continues.  An exhausted
script stands for a final timeout. -/
def read_loop (buffer : String) : List (Option String) → String
  | [] => buffer
  | none :: _ => buffer
  | some more :: rest =>
    if more = "" then buffer else read_loop (buffer ++ more) rest

/-- The trailing-null removal of rawread (MinerAPI.py lines 172-175): when
the buffer is nonempty and its last character is NUL, drop exactly that
character. -/
def strip_null (buffer : String) : String :=
  match buffer.toList.getLast? with
  | some c => if c = Char.ofNat 0 then String.mk buffer.toList.dropLast else buffer
  | none => buffer

/-- MinerAPI.rawread (MinerAPI.py lines 149-176) on an open connection:
`firstReady` is the outcome of the initial hasdata(3.0) wait — when false
the empty string is returned at once; otherwise `first` is the first recv
and `events` scripts the accumulation loop, after which a trailing NUL is
stripped. -/
def rawread (firstReady : Bool) (first : String) (events : List (Option String)) : String :=
  if firstReady then strip_null (read_loop first events) else ""

/-- The hexadecimal digit characters used in \u escapes. -/
def hexDigit (n : Nat) : Char :=
  if n < 10 then Char.ofNat (48 + n) else Char.ofNat (87 + n)

/-- Escaping of one character inside a JSON string literal, as json.dumps
does for the ASCII payloads at hand. -/
def escape_char (c : Char) : String :=
  if c = Char.ofNat 34 then "\\" ++ (Char.ofNat 34).toString
  else if c = Char.ofNat 92 then "\\\\"
  else if c = Char.ofNat 10 then "\\n"
  else if c = Char.ofNat 13 then "\\r"
  else if c = Char.ofNat 9 then "\\t"
  else if c.toNat < 32 then
    "\\u00" ++ (hexDigit (c.toNat / 16)).toString ++ (hexDigit (c.toNat % 16)).toString
  else c.toString

/-- A JSON string literal with its surrounding quotes. -/
def dump_string (s : String) : String :=
  (Char.ofNat 34).toString ++ String.join (s.toList.map escape_char) ++ (Char.ofNat 34).toString

mutual

/-- Python json.dumps with default arguments: item separator comma-space,
key separator colon-space, null/true/false literals. -/
def dumps : Json → String
  | .null => "null"
  | .bool b => if b then "true" else "false"
  | .num n => toString n
  | .str s => dump_string s
  | .arr elems => "[" ++ String.intercalate ", " (dumpsList elems) ++ "]"
  | .obj fields => "\x7b" ++ String.intercalate ", " (dumpsFields fields) ++ "\x7d"

/-- dumps over the elements of an array. -/
def dumpsList : List Json → List String
  | [] => []
  | x :: xs => dumps x :: dumpsList xs

/-- dumps over the fields of an object. -/
def dumpsFields : List (String × Json) → List String
  | [] => []
  | (k, v) :: rest => (dump_string k ++ ": " ++ dumps v) :: dumpsFields rest

end

/-- The params argument of MinerAPI.json: absent (None), a plain string,
or some other structured value. -/
inductive PyParams where
  | nothing
  | plain (s : String)
  | other (j : Json)

/-- The decoded-JSON image of a params value (None serializes as null). -/
def paramsJson : PyParams → Json
  | .nothing => .null
  | .plain s => .str s
  | .other j => j

/-- MinerAPI.json (MinerAPI.py lines 96-109): build the classic request
dict — command first, then either a singular "param" key when the params
argument is a plain string, else a plural "params" key (null included
when params is None) — and serialize it with json.dumps. -/
def miner_json (command : String) (params : PyParams) : String :=
  match params with
  | .plain s => dumps (.obj [("command", .str command), ("param", .str s)])
  | p => dumps (.obj [("command", .str command), ("params", paramsJson p)])

/-- MinerAPI.send_command (MinerAPI.py lines 194-197): the UTF-8 text put
on the wire is the json encoding followed by a single newline. -/
def send_command_payload (command : String) (params : PyParams) : String :=
  miner_json command params ++ "\n"

/-- The connection state MinerAPI.is_connected observes: the socket's file
descriptor (CPython reports -1 once the socket is closed) and the outcome
of the zero-timeout select writability probe — either a result or a
raised exception. -/
structure PySocket where
  fd : Int
  writable : Except String Bool

/-- MinerAPI.is_connected (MinerAPI.py lines 114-130): False when no socket
was ever opened, False when the descriptor reports -1, False when the
probe raises (the except clause covers the OSError / AttributeError /
ValueError these calls can raise), else the probe's writability result. -/
def is_connected : Option PySocket → Bool
  | none => false
  | some s =>
    if s.fd = -1 then false
    else
      match s.writable with
      | .error _ => false
      | .ok w => w

/-- MinerAPI.close (MinerAPI.py lines 132-134): a no-op without a socket;
otherwise socket.close() releases the descriptor, after which fileno()
reports -1. -/
def close : Option PySocket → Option PySocket
  | none => none
  | some s => some { s with fd := -1 }

/-- C1: for every response whose first STATUS entry has severity E, when the
status message contains "not ready" case-insensitively _handle_response
raises a MinerException of type RETRY_SHORT, and when it does not but
contains "disconnected" case-insensitively it raises one of type
RETRY_LONG — the first matching rule of the ordered pattern table wins. -/
theorem c1_error_classification (data st : Json) (rest : List Json) (cmd m : String)
    (hT : data.isTruthy = true)
    (hK : pyContainsKey data "STATUS" = Except.ok true)
    (hS : data.getKey "STATUS" = Except.ok (Json.arr (st :: rest)))
    (hE : st.getKey "STATUS" = Except.ok (Json.str "E"))
    (hM : st.getKey "Msg" = Except.ok (Json.str m)) :
    (searchCI "Not ready" m = true →
      handle_response data cmd =
        Except.error (PyError.minerExc ("Error for command " ++ cmd ++ ": " ++ m)
          ErrorType.retry_short))
    ∧ (searchCI "Not ready" m = false → searchCI "Disconnected" m = true →
      handle_response data cmd =
        Except.error (PyError.minerExc ("Error for command " ++ cmd ++ ": " ++ m)
          ErrorType.retry_long)) := by
  constructor
  · intro h1
    by_cases hp : cmd.toList.contains '+' <;>
      simp [handle_response, hT, hK, hS, hE, hM, hp, Json.getIdx, jsonEqStr, expectStr,
        matchErrorPatterns, error_patterns, h1, bind, Except.bind, pure, Except.pure,
        throw, throwThe, MonadExceptOf.throw]
  · intro h1 h2
    by_cases hp : cmd.toList.contains '+' <;>
      simp [handle_response, hT, hK, hS, hE, hM, hp, Json.getIdx, jsonEqStr, expectStr,
        matchErrorPatterns, error_patterns, h1, h2, bind, Except.bind, pure, Except.pure,
        throw, throwThe, MonadExceptOf.throw]

/-- A concrete Error-severity response whose message matches the first
pattern of the table. -/
def c1_data_short : Json :=
  Json.obj [("STATUS", Json.arr [Json.obj
    [("STATUS", Json.str "E"), ("Code", Json.num 14), ("Msg", Json.str "Not Ready to go")]])]

theorem c1_error_classification_witness :
    searchCI "Not ready" "Not Ready to go" = true ∧
    handle_response c1_data_short "stats" =
      Except.error (PyError.minerExc "Error for command stats: Not Ready to go"
        ErrorType.retry_short) := by
  refine ⟨rfl, ?_⟩
  exact (c1_error_classification c1_data_short
    (Json.obj [("STATUS", Json.str "E"), ("Code", Json.num 14),
      ("Msg", Json.str "Not Ready to go")])
    [] "stats" "Not Ready to go" rfl rfl rfl rfl rfl).1 rfl

/-- C4: for every Success-severity response the base classifier returns
SUMMARY[0] for Code 11, STATS for Code 70, DEVS for Code 9, and the whole
decoded object unrecognized for any other code, without raising; the
BOSminer classifier delegates to the base one and, when it was
unrecognized, returns TEMPS recognized for Code 201 and FANS recognized
for Code 202, falling back to the raw object unrecognized otherwise. -/
theorem c4_success_code_table (data st s0 statsJ devsJ tempsJ fansJ : Json)
    (rest srest : List Json) (cmd : String) (code : Int)
    (hT : data.isTruthy = true)
    (hK : pyContainsKey data "STATUS" = Except.ok true)
    (hS : data.getKey "STATUS" = Except.ok (Json.arr (st :: rest)))
    (hsev : st.getKey "STATUS" = Except.ok (Json.str "S"))
    (hcode : st.getKey "Code" = Except.ok (Json.num code))
    (hsumm : data.getKey "SUMMARY" = Except.ok (Json.arr (s0 :: srest)))
    (hstats : data.getKey "STATS" = Except.ok statsJ)
    (hdevs : data.getKey "DEVS" = Except.ok devsJ)
    (hfans : data.getKey "FANS" = Except.ok fansJ)
    (htemps : data.getKey "TEMPS" = Except.ok tempsJ) :
    (code = 11 → handle_response data cmd = Except.ok (s0, true))
    ∧ (code = 70 → handle_response data cmd = Except.ok (statsJ, true))
    ∧ (code = 9 → handle_response data cmd = Except.ok (devsJ, true))
    ∧ (code ≠ 11 → code ≠ 70 → code ≠ 9 →
        handle_response data cmd = Except.ok (data, false))
    ∧ (code = 201 → bos_handle_response data cmd = Except.ok (tempsJ, true))
    ∧ (code = 202 → bos_handle_response data cmd = Except.ok (fansJ, true))
    ∧ (code ≠ 11 → code ≠ 70 → code ≠ 9 → code ≠ 201 → code ≠ 202 →
        bos_handle_response data cmd = Except.ok (data, false)) := by
  have base : ∀ c : Int, code = c → code ≠ 11 → code ≠ 70 → code ≠ 9 →
      handle_response data cmd = Except.ok (data, false) := by
    intro c _ h11 h70 h9
    by_cases hp : cmd.toList.contains '+' <;>
      simp [handle_response, hT, hK, hS, hsev, hcode, hsumm, hstats, hdevs,
        Json.getIdx, jsonEqStr, jsonEqNum, h11, h70, h9, hp,
        bind, Except.bind, pure, Except.pure]
  refine ⟨?_, ?_, ?_, ?_, ?_, ?_, ?_⟩
  · intro hc
    subst hc
    by_cases hp : cmd.toList.contains '+' <;>
      simp [handle_response, hT, hK, hS, hsev, hcode, hsumm, Json.getIdx, jsonEqStr,
        jsonEqNum, hp, bind, Except.bind, pure, Except.pure]
  · intro hc
    subst hc
    by_cases hp : cmd.toList.contains '+' <;>
      simp [handle_response, hT, hK, hS, hsev, hcode, hstats, Json.getIdx, jsonEqStr,
        jsonEqNum, hp, bind, Except.bind, pure, Except.pure]
  · intro hc
    subst hc
    by_cases hp : cmd.toList.contains '+' <;>
      simp [handle_response, hT, hK, hS, hsev, hcode, hdevs, Json.getIdx, jsonEqStr,
        jsonEqNum, hp, bind, Except.bind, pure, Except.pure]
  · intro h11 h70 h9
    exact base code rfl h11 h70 h9
  · intro hc
    have hb : handle_response data cmd = Except.ok (data, false) := by
      refine base code rfl ?_ ?_ ?_ <;> simp [hc]
    subst hc
    simp [bos_handle_response, hb, hK, hS, hcode, htemps, Json.getIdx, jsonEqNum,
      bind, Except.bind, pure, Except.pure]
  · intro hc
    have hb : handle_response data cmd = Except.ok (data, false) := by
      refine base code rfl ?_ ?_ ?_ <;> simp [hc]
    subst hc
    simp [bos_handle_response, hb, hK, hS, hcode, hfans, Json.getIdx, jsonEqNum,
      bind, Except.bind, pure, Except.pure]
  · intro h11 h70 h9 h201 h202
    have hb : handle_response data cmd = Except.ok (data, false) := base code rfl h11 h70 h9
    simp [bos_handle_response, hb, hK, hS, hcode, Json.getIdx, jsonEqNum,
      h201, h202, bind, Except.bind, pure, Except.pure]

/-- A concrete Success response carrying every payload key the code table
selects from. -/
def c4_data : Json :=
  Json.obj [("STATUS", Json.arr [Json.obj
      [("STATUS", Json.str "S"), ("Code", Json.num 202), ("Msg", Json.str "4 Fan(s)")]]),
    ("SUMMARY", Json.arr [Json.obj [("MHS av", Json.num 5)]]),
    ("STATS", Json.arr []),
    ("DEVS", Json.arr []),
    ("FANS", Json.arr [Json.obj [("ID", Json.num 0), ("RPM", Json.num 3600)]]),
    ("TEMPS", Json.arr [])]

theorem c4_success_code_table_witness :
    bos_handle_response c4_data "fans" =
      Except.ok (Json.arr [Json.obj [("ID", Json.num 0), ("RPM", Json.num 3600)]], true) := by
  exact (c4_success_code_table c4_data
    (Json.obj [("STATUS", Json.str "S"), ("Code", Json.num 202), ("Msg", Json.str "4 Fan(s)")])
    (Json.obj [("MHS av", Json.num 5)]) (Json.arr []) (Json.arr [])
    (Json.arr []) (Json.arr [Json.obj [("ID", Json.num 0), ("RPM", Json.num 3600)]])
    [] [] "fans" 202 rfl rfl rfl rfl rfl rfl rfl rfl rfl rfl).2.2.2.2.2.1 rfl

/-- Whether an outcome is a raised MinerException (the kind of error
execute_command's caller can catch). -/
def is_miner_raise {α : Type} : Py α → Bool
  | .error (.minerExc _ _) => true
  | _ => false

/-- Whether an outcome terminates the process via sys.exit. -/
def is_process_exit {α : Type} : Py α → Bool
  | .error (.sysExit _) => true
  | _ => false

/-- An Error-severity response whose message matches no retry pattern. -/
def c3_data : Json :=
  Json.obj [("STATUS", Json.arr [Json.obj
    [("STATUS", Json.str "E"), ("Code", Json.num 14), ("Msg", Json.str "Invalid command")]])]

/-- C3 counterexample: on an Error response whose message matches no retry
pattern, _handle_response terminates the process with sys.exit(3) instead
of raising a Fatal MinerException to the caller. -/
theorem c3_counterexample :
    handle_response c3_data "stats" = Except.error (PyError.sysExit 3)
    ∧ is_process_exit (handle_response c3_data "stats") = true
    ∧ is_miner_raise (handle_response c3_data "stats") = false := by
  exact ⟨rfl, rfl, rfl⟩

/-- C3 amended: for every Error-severity response whose message matches
none of the retry patterns _handle_response prints and exits the process
with code 3, and for every response whose severity is neither S nor E it
prints and exits with code 4 — in neither case is a Fatal error raised to
the caller of execute(). -/
theorem c3_unmatched_exits (data st : Json) (rest : List Json) (cmd m w : String)
    (hT : data.isTruthy = true)
    (hK : pyContainsKey data "STATUS" = Except.ok true)
    (hS : data.getKey "STATUS" = Except.ok (Json.arr (st :: rest)))
    (hM : st.getKey "Msg" = Except.ok (Json.str m)) :
    (st.getKey "STATUS" = Except.ok (Json.str "E") →
      searchCI "Not ready" m = false → searchCI "Disconnected" m = false →
      handle_response data cmd = Except.error (PyError.sysExit 3))
    ∧ (st.getKey "STATUS" = Except.ok (Json.str w) → w ≠ "E" → w ≠ "S" →
      handle_response data cmd = Except.error (PyError.sysExit 4)) := by
  constructor
  · intro hE h1 h2
    by_cases hp : cmd.toList.contains '+' <;>
      simp [handle_response, hT, hK, hS, hE, hM, hp, Json.getIdx, jsonEqStr, expectStr,
        matchErrorPatterns, error_patterns, h1, h2, bind, Except.bind, pure, Except.pure]
  · intro hW hne hns
    by_cases hp : cmd.toList.contains '+' <;>
      simp [handle_response, hT, hK, hS, hW, hM, hp, Json.getIdx, jsonEqStr,
        hne, hns, bind, Except.bind, pure, Except.pure]

theorem c3_unmatched_exits_witness :
    searchCI "Not ready" "Invalid command" = false ∧
    searchCI "Disconnected" "Invalid command" = false ∧
    handle_response c3_data "stats" = Except.error (PyError.sysExit 3) := by
  refine ⟨rfl, rfl, ?_⟩
  exact (c3_unmatched_exits c3_data
    (Json.obj [("STATUS", Json.str "E"), ("Code", Json.num 14),
      ("Msg", Json.str "Invalid command")])
    [] "stats" "Invalid command" "W" rfl rfl rfl rfl).1 rfl rfl rfl

/-- An iteration whose attempt raised a MinerException, caught at the given
elapsed time. -/
def attempt_failure (msg : String) (ty : ErrorType) (elapsed : ℚ) : Attempt :=
  ⟨Except.error (PyError.minerExc msg ty), elapsed⟩

/-- C2: on every caught MinerException, execute_command re-raises when the
error is not retryable or the elapsed time has reached max_retry_duration,
attempting nothing further; otherwise it sleeps for
min(base(kind)*(attempt+1), max_delay, max_retry_duration−elapsed), which
never extends past the remaining deadline, and for RETRY_SHORT failures
with base 1 and max_delay 60 the delay at attempt n is min(n+1, 60) —
the sequence 1, 2, 3, ..., 60, 60, ... -/
theorem c2_retry_backoff (cfg : RetryConfig) (msg : String) (ty : ErrorType)
    (elapsed : ℚ) (attempt : ℕ) (rest : List Attempt) :
    (ty.is_retryable = false →
      execute_command cfg attempt (attempt_failure msg ty elapsed :: rest)
        = ExecTrace.done (Except.error (PyError.minerExc msg ty)) [])
    ∧ (cfg.max_retry_duration ≤ elapsed →
      execute_command cfg attempt (attempt_failure msg ty elapsed :: rest)
        = ExecTrace.done (Except.error (PyError.minerExc msg ty)) [])
    ∧ (ty.is_retryable = true → elapsed < cfg.max_retry_duration →
      (execute_command cfg attempt (attempt_failure msg ty elapsed :: rest)).sleeps.head?
        = some (min (min (base_delay cfg ty * ((attempt : ℚ) + 1)) cfg.max_delay)
            (cfg.max_retry_duration - elapsed))
      ∧ min (min (base_delay cfg ty * ((attempt : ℚ) + 1)) cfg.max_delay)
          (cfg.max_retry_duration - elapsed) ≤ cfg.max_retry_duration - elapsed)
    ∧ (ty = ErrorType.retry_short → cfg.initial_delay_short = 1 → cfg.max_delay = 60 →
      elapsed < cfg.max_retry_duration →
      min ((attempt : ℚ) + 1) 60 ≤ cfg.max_retry_duration - elapsed →
      (execute_command cfg attempt (attempt_failure msg ty elapsed :: rest)).sleeps.head?
        = some (min ((attempt : ℚ) + 1) 60)
      ∧ ((attempt : ℚ) + 1 ≤ 60 → min ((attempt : ℚ) + 1) 60 = (attempt : ℚ) + 1)
      ∧ (60 ≤ (attempt : ℚ) + 1 → min ((attempt : ℚ) + 1) 60 = 60)) := by
  have hsleep : ∀ hr : ty.is_retryable = true, ∀ he : elapsed < cfg.max_retry_duration,
      (execute_command cfg attempt (attempt_failure msg ty elapsed :: rest)).sleeps.head?
        = some (min (min (base_delay cfg ty * ((attempt : ℚ) + 1)) cfg.max_delay)
            (cfg.max_retry_duration - elapsed)) := by
    intro hr he
    have he' : ¬ (cfg.max_retry_duration ≤ elapsed) := not_le.mpr he
    rcases hrec : execute_command cfg (attempt + 1) rest with ⟨r, sleeps⟩ | ⟨sleeps⟩ <;>
      simp [execute_command, attempt_failure, retry_decision, hr, he', hrec, ExecTrace.sleeps]
  refine ⟨?_, ?_, ?_, ?_⟩
  · intro hr
    simp [execute_command, attempt_failure, retry_decision, hr]
  · intro he
    by_cases hr : ty.is_retryable <;>
      simp [execute_command, attempt_failure, retry_decision, hr, he]
  · intro hr he
    exact ⟨hsleep hr he, min_le_right _ _⟩
  · intro hty h1 h60 he hrem
    subst hty
    have hb : base_delay cfg ErrorType.retry_short = 1 := by
      simpa [base_delay] using h1
    have hd : min (min (base_delay cfg ErrorType.retry_short * ((attempt : ℚ) + 1))
        cfg.max_delay) (cfg.max_retry_duration - elapsed) = min ((attempt : ℚ) + 1) 60 := by
      rw [hb, h60, one_mul]
      exact min_eq_left hrem
    refine ⟨?_, fun h => min_eq_left h, fun h => min_eq_right h⟩
    rw [hsleep rfl he, hd]

/-- The default retry configuration of execute_command (Miners.py lines
101-102): 300 s deadline, 1 s short base, 10 s long base, 60 s cap. -/
def default_cfg : RetryConfig := ⟨300, 1, 10, 60⟩

theorem c2_retry_backoff_witness :
    (ErrorType.retry_short.is_retryable = true ∧ (5 : ℚ) < 300) ∧
    (execute_command default_cfg 2
      [attempt_failure "Error for command stats: Not Ready" ErrorType.retry_short 5]).sleeps.head?
      = some 3 := by
  refine ⟨⟨rfl, by norm_num [default_cfg]⟩, ?_⟩
  have h := (c2_retry_backoff default_cfg "Error for command stats: Not Ready"
    ErrorType.retry_short 5 2 []).2.2.2 rfl rfl rfl (by norm_num [default_cfg])
    (by norm_num [default_cfg])
  rw [h.1, h.2.1 (by norm_num)]
  norm_num

/-- Whether an outcome is a raised MinerException with a retryable
error_type — the only errors the execute_command retry loop retries. -/
def raised_retryable {α : Type} : Py α → Bool
  | .error (.minerExc _ ty) => ty.is_retryable
  | _ => false

/-- Python falsity of the decoded response get_resp handed back (`if not
response:`): absent, or present but falsy. -/
def resp_falsy : Option Json → Bool
  | none => true
  | some j => !j.isTruthy

/-- C5 counterexample: the CGMiner.api_command copy in MinerAPI.py answers
an absent response with a plain RuntimeError, which is not a retryable
MinerException of kind RETRY_LONG. -/
theorem c5_counterexample :
    api_command_legacy (Cmd.single "summary") none
      = Except.error (PyError.raised "RuntimeError" "No response returned for command: summary")
    ∧ raised_retryable (api_command_legacy (Cmd.single "summary") none) = false
    ∧ is_miner_raise (api_command_legacy (Cmd.single "summary") none) = false := by
  exact ⟨rfl, rfl, rfl⟩

/-- C5 amended: in the Miners.py implementation, api_command raises a
MinerException of type RETRY_LONG for every command whose decoded response
is empty or absent. -/
theorem c5_empty_response_retry_long (command : Cmd) (resp : Option Json)
    (h : resp_falsy resp = true) :
    api_command command resp
      = Except.error (PyError.minerExc
          ("No response returned for command: " ++ command.commandStr) ErrorType.retry_long) := by
  cases resp with
  | none => cases command <;> rfl
  | some j =>
    have hj : j.isTruthy = false := by simpa [resp_falsy] using h
    cases command <;>
      simp [api_command, hj, bind, Except.bind, pure, Except.pure]

theorem c5_empty_response_retry_long_witness :
    resp_falsy none = true ∧
    api_command (Cmd.single "summary") none
      = Except.error (PyError.minerExc "No response returned for command: summary"
          ErrorType.retry_long) := by
  exact ⟨rfl, c5_empty_response_retry_long (Cmd.single "summary") none rfl⟩

/-- The missing-key loop of the Miners.py api_command stops at the first
token absent from the decoded mapping and raises RETRY_SHORT. -/
theorem checkKeys_missing (cs : String) (resp : Json) (k : String) (post : List String)
    (hk : pyContainsKey resp k = Except.ok false) :
    ∀ pre : List String, (∀ p ∈ pre, pyContainsKey resp p = Except.ok true) →
    checkKeys cs resp (pre ++ k :: post)
      = Except.error (PyError.minerExc (no_key_msg k cs) ErrorType.retry_short) := by
  intro pre
  induction pre with
  | nil =>
    intro _
    simp [checkKeys, hk, bind, Except.bind]
  | cons p pre ih =>
    intro h
    have hp := h p (by simp)
    have hrest := ih (fun q hq => h q (by simp [hq]))
    simp [checkKeys, hp, bind, Except.bind, pure, Except.pure, hrest]

/-- A combined-command response carrying the summary part but no stats
part. -/
def c6_resp : Json :=
  Json.obj [("summary", Json.arr [Json.obj [("STATUS", Json.arr
    [Json.obj [("STATUS", Json.str "S"), ("Code", Json.num 11), ("Msg", Json.str "Summary")]])]])]

/-- C6 counterexample: the CGMiner.api_command copy in MinerAPI.py answers
a summary+stats response missing the stats key with a plain RuntimeError,
which is not a retryable MinerException of kind RETRY_SHORT. -/
theorem c6_counterexample :
    api_command_legacy (Cmd.combined ["summary", "stats"]) (some c6_resp)
      = Except.error (PyError.raised "RuntimeError" (no_key_msg "stats" "summary+stats"))
    ∧ raised_retryable
        (api_command_legacy (Cmd.combined ["summary", "stats"]) (some c6_resp)) = false
    ∧ is_miner_raise
        (api_command_legacy (Cmd.combined ["summary", "stats"]) (some c6_resp)) = false := by
  exact ⟨rfl, rfl, rfl⟩

/-- C6 amended: in the Miners.py implementation, a combined command whose
truthy decoded response lacks one of the expected sub-command tokens makes
api_command raise a MinerException of type RETRY_SHORT naming the first
missing token. -/
theorem c6_missing_token_retry_short (pre post : List String) (k : String) (resp : Json)
    (hT : resp.isTruthy = true)
    (hplus : (Cmd.combined (pre ++ k :: post)).commandStr.toList.contains '+' = true)
    (hpre : ∀ p ∈ pre, pyContainsKey resp p = Except.ok true)
    (hk : pyContainsKey resp k = Except.ok false) :
    api_command (Cmd.combined (pre ++ k :: post)) (some resp)
      = Except.error (PyError.minerExc
          (no_key_msg k (Cmd.combined (pre ++ k :: post)).commandStr) ErrorType.retry_short) := by
  have hck := checkKeys_missing (Cmd.combined (pre ++ k :: post)).commandStr resp k post hk pre hpre
  have hmem : '+' ∈ (Cmd.combined (pre ++ k :: post)).commandStr.data := by
    simpa [String.toList] using hplus
  simp [api_command, hT, hmem, hck, bind, Except.bind, pure, Except.pure]

theorem c6_missing_token_retry_short_witness :
    pyContainsKey c6_resp "stats" = Except.ok false ∧
    api_command (Cmd.combined ["summary", "stats"]) (some c6_resp)
      = Except.error (PyError.minerExc (no_key_msg "stats" "summary+stats")
          ErrorType.retry_short) := by
  refine ⟨rfl, ?_⟩
  exact c6_missing_token_retry_short ["summary"] [] "stats" c6_resp rfl rfl
    (by intro p hp; simp at hp; subst hp; rfl) rfl

/-- C7 counterexample: the classic-dialect encoding of the command
"summary" with no parameter is not the bytes of the two-character-brace
object claimed — json.dumps serializes the "params": null entry the code
always adds, with its default comma-space and colon-space separators. -/
theorem c7_counterexample :
    send_command_payload "summary" PyParams.nothing
      ≠ "\x7b\"command\":\"summary\"\x7d" ++ "\n" := by
  decide

/-- C7 amended: encoding the command "summary" with no parameter via the
classic dialect produces exactly the text of
\x7b"command": "summary", "params": null\x7d followed by a single
newline (an all-ASCII string, so its UTF-8 bytes are these characters),
and nothing else. -/
theorem c7_payload_value :
    send_command_payload "summary" PyParams.nothing
      = "\x7b\"command\": \"summary\", \"params\": null\x7d\n" := by
  rfl

/-- C8 counterexample: when the probe gets no response at all,
detect_miner_type does not return "unknown" — the MinerException raised
by api_command propagates out of it, since the except clause catches only
KeyError, IndexError and TypeError. -/
theorem c8_counterexample :
    detect_miner_type none
      = Except.error (PyError.minerExc "No response returned for command: version"
          ErrorType.retry_long)
    ∧ detect_miner_type none ≠ Except.ok "unknown" := by
  refine ⟨rfl, fun h => ?_⟩
  rw [show detect_miner_type none
    = Except.error (PyError.minerExc "No response returned for command: version"
        ErrorType.retry_long) from rfl] at h
  exact Except.noConfusion h

/-- C8 amended: for every probe response that is a truthy mapping with a
STATUS key whose VERSION block (defaulting to a one-element list holding
an empty dict) is a nonempty list, detect_miner_type returns "bosminer"
when the first version entry carries the BOSer marker, "cgminer" when it
carries the CGMiner marker instead, and "unknown" otherwise; and every
KeyError, IndexError or TypeError raised by the probe body (a shape
mismatch) also yields "unknown".  But an exception of any other kind —
in particular the MinerException api_command raises on an empty response
— propagates, so detection is only raise-free for decoded-mapping
probes. -/
theorem c8_detect_marker_table (r vd : Json) (vrest : List Json) (bb cb : Bool)
    (resp2 : Option Json) (k m : String)
    (hT : r.isTruthy = true)
    (hK : pyContainsKey r "STATUS" = Except.ok true)
    (hV : pyGetDefault r "VERSION" (Json.arr [Json.obj []]) = Except.ok (Json.arr (vd :: vrest)))
    (hBos : pyContainsKey vd "BOSer" = Except.ok bb)
    (hCg : pyContainsKey vd "CGMiner" = Except.ok cb) :
    (detect_miner_type (some r)
      = Except.ok (if bb then "bosminer" else if cb then "cgminer" else "unknown"))
    ∧ ((k = "KeyError" ∨ k = "IndexError" ∨ k = "TypeError") →
        detect_body resp2 = Except.error (PyError.raised k m) →
        detect_miner_type resp2 = Except.ok "unknown") := by
  constructor
  · have hbody : detect_body (some r)
        = Except.ok (if bb then "bosminer" else if cb then "cgminer" else "unknown") := by
      cases bb <;> cases cb <;>
        simp [detect_body, api_command, hT, hK, hV, hBos, hCg, Json.getIdx,
          bind, Except.bind, pure, Except.pure]
    simp [detect_miner_type, hbody]
  · intro hks hbody2
    rcases hks with h | h | h <;> subst h <;> simp [detect_miner_type, hbody2]

/-- A version response carrying the BOSer marker. -/
def c8_bos_resp : Json :=
  Json.obj [("STATUS", Json.arr [Json.obj
      [("STATUS", Json.str "S"), ("Code", Json.num 22), ("Msg", Json.str "BOSminer versions")]]),
    ("VERSION", Json.arr [Json.obj [("BOSer", Json.str "1.0.1"), ("API", Json.str "3.7")]])]

/-- A version response whose VERSION block has the wrong type. -/
def c8_bad_resp : Json :=
  Json.obj [("STATUS", Json.arr [Json.obj
      [("STATUS", Json.str "S"), ("Code", Json.num 22), ("Msg", Json.str "versions")]]),
    ("VERSION", Json.num 3)]

theorem c8_detect_marker_table_witness :
    detect_miner_type (some c8_bos_resp) = Except.ok "bosminer"
    ∧ detect_miner_type (some c8_bad_resp) = Except.ok "unknown" := by
  have h := c8_detect_marker_table c8_bos_resp
    (Json.obj [("BOSer", Json.str "1.0.1"), ("API", Json.str "3.7")]) [] true false
    (some c8_bad_resp) "TypeError" "object is not subscriptable by int"
    rfl rfl rfl rfl rfl
  exact ⟨by simpa using h.1, h.2 (by simp) rfl⟩

/-- C9: rawread returns the empty string when nothing becomes readable in
the initial 3-second wait; otherwise it accumulates each successfully
polled chunk into the buffer until a poll yields no new bytes, and when
the accumulated buffer ends in the NUL sentinel exactly that one trailing
character is removed. -/
theorem c9_rawread_framing (first : String) (events : List (Option String))
    (chunks : List String) (l : List Char) :
    (rawread false first events = "")
    ∧ ((read_loop first events).toList = l ++ [Char.ofNat 0] →
        rawread true first events = String.mk l
        ∧ read_loop first events = String.mk l ++ String.mk [Char.ofNat 0]
        ∧ (rawread true first events).length + 1 = (read_loop first events).length)
    ∧ ((read_loop first events).toList.getLast? ≠ some (Char.ofNat 0) →
        rawread true first events = read_loop first events)
    ∧ ((∀ s ∈ chunks, s ≠ "") →
        read_loop first (chunks.map Option.some) = chunks.foldl (fun a b => a ++ b) first) := by
  refine ⟨rfl, ?_, ?_, ?_⟩
  · intro h
    have hb : read_loop first events = String.mk (l ++ [Char.ofNat 0]) := by
      apply String.ext
      simpa [String.toList] using h
    refine ⟨?_, ?_, ?_⟩
    · simp [rawread, hb, strip_null, String.toList, List.getLast?_concat, List.dropLast_concat]
    · rw [hb]
      apply String.ext
      simp
    · simp [rawread, hb, strip_null, String.toList, List.getLast?_concat,
        List.dropLast_concat, String.length]
  · intro h
    have h' : (read_loop first events).data.getLast? ≠ some (Char.ofNat 0) := h
    rcases hg : (read_loop first events).data.getLast? with _ | c
    · simp [rawread, strip_null, String.toList, hg]
    · have hc : ¬ (c = Char.ofNat 0) := by
        intro hc
        exact h' (hc ▸ hg)
      simp [rawread, strip_null, String.toList, hg, hc]
  · intro h
    induction chunks generalizing first with
    | nil => rfl
    | cons s rest ih =>
      have hs : ¬ (s = "") := h s (by simp)
      simp only [List.map_cons, read_loop, if_neg hs, List.foldl_cons]
      exact ih (first ++ s) (fun q hq => h q (List.mem_cons_of_mem s hq))

theorem c9_rawread_framing_witness :
    (read_loop "ab" [some ("cd" ++ (Char.ofNat 0).toString)]).toList
      = "abcd".toList ++ [Char.ofNat 0]
    ∧ rawread true "ab" [some ("cd" ++ (Char.ofNat 0).toString)] = "abcd"
    ∧ rawread false "ab" [some "cd"] = "" := by
  have h := c9_rawread_framing "ab" [some ("cd" ++ (Char.ofNat 0).toString)] [] "abcd".toList
  exact ⟨rfl, (h.2.1 rfl).1, (c9_rawread_framing "ab" [some "cd"] [] []).1⟩

/-- C10: is_connected is a total boolean observation — False when no socket
was ever opened, False after close() has released the descriptor (fileno
reports -1), and False when the writability probe raises instead of
answering — so close() followed by is_connected() always yields False. -/
theorem c10_is_connected_total (c : Option PySocket) (s : PySocket) (e : String)
    (hp : s.writable = Except.error e) :
    is_connected none = false
    ∧ is_connected (close c) = false
    ∧ is_connected (some s) = false := by
  refine ⟨rfl, ?_, ?_⟩
  · cases c with
    | none => rfl
    | some s' => simp [close, is_connected]
  · by_cases hfd : s.fd = -1
    · simp [is_connected, hfd]
    · simp [is_connected, hfd, hp]

theorem c10_is_connected_total_witness :
    is_connected (close (some ⟨7, Except.ok true⟩)) = false
    ∧ is_connected (some ⟨5, Except.error "OSError"⟩) = false := by
  have h := c10_is_connected_total (some ⟨7, Except.ok true⟩)
    ⟨5, Except.error "OSError"⟩ "OSError" rfl
  exact ⟨h.2.1, h.2.2⟩

end AvalonStats
